import Mathlib

/-!
Verification of the auto-delete bot core (`src/bot.py`) against its
natural-language specification.

The Python source is shallowly embedded below: each handler or helper of
`bot.py` becomes a pure Lean function.  Stateful parts (the in-memory cache
`GROUP_SETTINGS` and the persistent `groups_collection`) are passed
explicitly as finite maps `Int → Option Nat`; external effects (the
platform's answer to a delete request, the outcome of a database write, the
result of the admin-membership query) are parameters of the corresponding
handler function.
-/

namespace Bot

/-- `DEFAULT_DELETE_TIME = 600` (bot.py line 19). -/
def DEFAULT_DELETE_TIME : Nat := 600

/-- Decimal value of a digit list, as Python `int()` computes it for an
all-digit string. -/
def natOfDigits (cs : List Char) : Nat :=
  cs.foldl (fun n c => n * 10 + (c.toNat - 48)) 0

/-- Python `str.isdigit()` restricted to ASCII: non-empty and all digits. -/
def pyIsDigit (cs : List Char) : Bool :=
  !cs.isEmpty && cs.all Char.isDigit

/-- Python `str.strip()`: drop leading and trailing whitespace. -/
def pyStrip (s : String) : String :=
  String.mk (((s.toList.dropWhile Char.isWhitespace).reverse.dropWhile
    Char.isWhitespace).reverse)

/-- Python `str.lower()` restricted to ASCII. -/
def pyLower (s : String) : String :=
  String.mk (s.toList.map Char.toLower)

/-- Python `str.split()` with no argument: split on runs of whitespace,
dropping empty pieces.  `acc` holds the current word reversed. -/
def pySplitAux : List Char → List Char → List String
  | [], acc => if acc.isEmpty then [] else [String.mk acc.reverse]
  | c :: cs, acc =>
    if c.isWhitespace then
      if acc.isEmpty then pySplitAux cs []
      else String.mk acc.reverse :: pySplitAux cs []
    else pySplitAux cs (c :: acc)

/-- Python `str.split()` (used as `message.text.split()` in bot.py). -/
def pySplit (s : String) : List String :=
  pySplitAux s.toList []

/-- The `time_multipliers` dict of bot.py lines 76-82, with `.get(unit, 1)`
defaulting to 1 (line 85). -/
def time_multipliers (c : Char) : Nat :=
  if c = 's' then 1
  else if c = 'm' then 60
  else if c = 'h' then 3600
  else if c = 'd' then 86400
  else if c = 'w' then 604800
  else 1

/-- The regex `^(\d+)([smhdw])?$` of bot.py line 68, returning the integer
value of group 1 and the unit letter (`'s'` when group 2 is absent,
mirroring `match.group(2) or 's'` on line 73). -/
def matchTimeRe (cs : List Char) : Option (Nat × Char) :=
  let digits := cs.takeWhile Char.isDigit
  let rest := cs.dropWhile Char.isDigit
  if digits.isEmpty then none
  else
    match rest with
    | [] => some (natOfDigits digits, 's')
    | [c] =>
      if c = 's' ∨ c = 'm' ∨ c = 'h' ∨ c = 'd' ∨ c = 'w' then
        some (natOfDigits digits, c)
      else none
    | _ => none

/-- `parse_time_to_seconds` (bot.py lines 39-93).  Note the source's control
flow exactly: an all-digit string returns through the `isdigit` fast path on
lines 64-65, BEFORE the `[30, 604800]` bounds checks on lines 87-91; those
checks only guard the regex branch. -/
def parse_time_to_seconds (time_str : String) : Option Nat :=
  if time_str = "" then none
  else
    let t := pyLower (pyStrip time_str)
    if pyIsDigit t.toList then some (natOfDigits t.toList)
    else
      match matchTimeRe t.toList with
      | none => none
      | some (value, unit) =>
        let total_seconds := value * time_multipliers unit
        if total_seconds < 30 then none
        else if total_seconds > 604800 then none
        else some total_seconds

/-- `format_time` (bot.py lines 205-215 and identically 260-270). -/
def format_time (seconds : Nat) : String :=
  if seconds ≥ 604800 then toString (seconds / 604800) ++ "w"
  else if seconds ≥ 86400 then toString (seconds / 86400) ++ "d"
  else if seconds ≥ 3600 then toString (seconds / 3600) ++ "h"
  else if seconds ≥ 60 then toString (seconds / 60) ++ "m"
  else toString seconds ++ "s"

/-- The cache read `GROUP_SETTINGS.get(chat_id, DEFAULT_DELETE_TIME)`
(bot.py lines 202 and 279).  It is a function of the in-memory cache alone:
the persistent store is not an input, so the read path never touches it. -/
def settings_get (cache : Int → Option Nat) (chat_id : Int) : Nat :=
  (cache chat_id).getD DEFAULT_DELETE_TIME

/-- `update_group_settings` (bot.py lines 105-132).  `dbOk` is the outcome
of the Mongo `update_one` upsert: when it is `false` the await raises, the
`except` block on line 131 swallows the exception, and neither the persisted
record nor the cache entry is written; the function returns normally either
way (it surfaces nothing to its caller).  Returns (persistent store, cache)
after the call. -/
def update_group_settings (dbOk : Bool) (db cache : Int → Option Nat)
    (chat_id : Int) (delete_time : Option Nat) :
    (Int → Option Nat) × (Int → Option Nat) :=
  if dbOk then
    let v := delete_time.getD DEFAULT_DELETE_TIME
    (fun g => if g = chat_id then some v else db g,
     fun g => if g = chat_id then some v else cache g)
  else (db, cache)

/-- The replies `message.reply_text(...)` a handler can send, tagged with the
formatted time they embed where relevant. -/
inductive Reply where
  /-- "This command can only be used in groups." (line 196) -/
  | privateOnly : Reply
  /-- "Current delete time is {format_time(current_time)}." (line 218) -/
  | currentTime : String → Reply
  /-- "Invalid time format!" (line 233) -/
  | invalidFormat : Reply
  /-- "Only group admins can set delete time." (line 253) -/
  | adminsOnly : Reply
  /-- "Set delete time to {format_time(delete_time)} for this group." (line 272) -/
  | setConfirm : String → Reply
  /-- The welcome message of `handle_new_chat` (lines 148-168) -/
  | welcome : Reply
  deriving DecidableEq, Repr

/-- Result of running a settings handler: the replies it sent, then the
persistent store and the cache after it. -/
structure HandlerResult where
  replies : List Reply
  db : Int → Option Nat
  cache : Int → Option Nat

/-- `set_delete_time` (bot.py lines 192-272).  `admins` is the outcome of the
`bot.get_chat_members(..., ADMINISTRATORS)` query: `some l` is the list of
administrator user ids, `none` means the query raised (transient failure), in
which case the exception propagates out of the handler — no reply is sent and
no state is touched.  `dbOk` is the database-write outcome threaded to
`update_group_settings`. -/
def set_delete_time (isPrivate : Bool) (text : String) (chat_id user_id : Int)
    (admins : Option (List Int)) (dbOk : Bool) (db cache : Int → Option Nat) :
    HandlerResult :=
  if isPrivate then ⟨[.privateOnly], db, cache⟩
  else if (pySplit text).length == 1 then
    let current_time := settings_get cache chat_id
    ⟨[.currentTime (format_time current_time)], db, cache⟩
  else
    match parse_time_to_seconds ((pySplit text).getD 1 "") with
    | none => ⟨[.invalidFormat], db, cache⟩
    | some delete_time =>
      match admins with
      | none => ⟨[], db, cache⟩
      | some administrators =>
        if user_id ∈ administrators then
          let s := update_group_settings dbOk db cache chat_id (some delete_time)
          ⟨[.setConfirm (format_time delete_time)], s.1, s.2⟩
        else ⟨[.adminsOnly], db, cache⟩

/-- `handle_new_chat` (bot.py lines 134-169).  `members` is the list of
`is_self` flags of `message.new_chat_members`; the `for` loop updates the
settings and sends the welcome exactly when some member is the bot itself,
then breaks.  Returns (persistent store, cache, replies). -/
def handle_new_chat (members : List Bool) (dbOk : Bool)
    (db cache : Int → Option Nat) (chat_id : Int) :
    (Int → Option Nat) × (Int → Option Nat) × List Reply :=
  if members.any (fun b => b) then
    let s := update_group_settings dbOk db cache chat_id none
    (s.1, s.2, [.welcome])
  else (db, cache, [])

/-- Errors the platform's delete RPC can signal. -/
inductive DeleteError where
  | rateLimited : Nat → DeleteError
  | permissionError : DeleteError
  | alreadyDeleted : DeleteError
  | transportFailure : DeleteError
  deriving DecidableEq, Repr

/-- Outcome of one `message.delete()` call. -/
inductive DeleteOutcome where
  | ok : DeleteOutcome
  | err : DeleteError → DeleteOutcome
  deriving DecidableEq, Repr

/-- Terminal status of a deletion task. -/
inductive TaskStatus where
  | completed : TaskStatus
  | failed : TaskStatus
  deriving DecidableEq, Repr

/-- `delete_message` (bot.py lines 274-286): read the delay from the cache,
`asyncio.sleep(delete_time)`, then attempt `message.delete()` once.  The
whole body sits in one `try/except Exception` whose handler only prints, so
ANY error from the delete call — rate limit included — ends the task with no
retry.  `platform` maps the (absolute) time of an attempt to its outcome.
Returns the list of times at which a delete request was issued, and the
terminal status. -/
def delete_message (cache : Int → Option Nat) (chat_id : Int) (arrival : Nat)
    (platform : Nat → DeleteOutcome) : List Nat × TaskStatus :=
  let delete_time := settings_get cache chat_id
  let fire := arrival + delete_time
  ([fire],
   match platform fire with
   | .ok => .completed
   | .err _ => .failed)

/-- The unit table of the display formatter, largest multiplier first:
week, day, hour, minute, second. -/
def unit_table : List (Nat × String) :=
  [(604800, "w"), (86400, "d"), (3600, "h"), (60, "m"), (1, "s")]

/-- Specification-side formatter: pick the largest unit whose multiplier is
at most the duration and report the floor of the integer division. -/
def format_spec (s : Nat) : Option String :=
  (unit_table.find? (fun u => decide (u.1 ≤ s))).map
    (fun u => toString (s / u.1) ++ u.2)

/-- C1 counterexample: a delete attempt answered by a rate-limit signal with
mandated wait 5 produces NO retry — the task makes exactly one attempt and
terminates failed.  The claim requires a second attempt (the retry) at least
5 seconds later; here the attempt list has length 1. -/
theorem C1_rate_limit_no_retry_counterexample :
    (delete_message (fun _ => some 60) 1 0
      (fun _ => .err (.rateLimited 5))).1.length = 1 ∧
    (delete_message (fun _ => some 60) 1 0
      (fun _ => .err (.rateLimited 5))).2 = .failed := by decide

/-- C1 (amended): every error on the scheduled delete, a rate-limit signal
included, terminates the task on first occurrence; the task makes exactly
one delete attempt and ends failed, with no retry of any kind. -/
theorem C1_any_error_single_attempt (cache : Int → Option Nat) (chat_id : Int)
    (arrival : Nat) (platform : Nat → DeleteOutcome) (e : DeleteError)
    (h : platform (arrival + settings_get cache chat_id) = .err e) :
    (delete_message cache chat_id arrival platform).1.length = 1 ∧
    (delete_message cache chat_id arrival platform).2 = .failed := by
  simp [delete_message, h]

/-- Witness for C1 at a concrete rate-limited run. -/
theorem C1_any_error_single_attempt_witness :
    (delete_message (fun _ => some 60) 2 10
      (fun _ => .err (.rateLimited 7))).1.length = 1 ∧
    (delete_message (fun _ => some 60) 2 10
      (fun _ => .err (.rateLimited 7))).2 = .failed :=
  C1_any_error_single_attempt (fun _ => some 60) 2 10
    (fun _ => .err (.rateLimited 7)) (.rateLimited 7) rfl

/-- C2 counterexample: with the group's `delete_after` cached as 0, the
scheduler still issues a delete request (at the arrival time itself): the
attempt list is `[100]`, not empty as the claim demands. -/
theorem C2_zero_still_deletes_counterexample :
    (delete_message (fun _ => some 0) 7 100 (fun _ => .ok)).1 = [100] := by
  decide

/-- C2 (amended): `delete_after = 0` is not a disabled state — the code has
no zero check, so the timer sleeps 0 seconds and the delete request is
issued immediately, at the arrival time. -/
theorem C2_zero_deletes_immediately (cache : Int → Option Nat) (chat_id : Int)
    (arrival : Nat) (platform : Nat → DeleteOutcome)
    (h : cache chat_id = some 0) :
    (delete_message cache chat_id arrival platform).1 = [arrival] := by
  simp [delete_message, settings_get, h]

/-- Witness for C2 (amended) at a concrete zero-delay group. -/
theorem C2_zero_deletes_immediately_witness :
    (delete_message (fun _ => some 0) 8 250 (fun _ => .ok)).1 = [250] :=
  C2_zero_deletes_immediately (fun _ => some 0) 8 250 (fun _ => .ok) rfl

/-- C3: the bare-digit fast path of `parse_time_to_seconds` (bot.py lines
64-65) returns before the `[30, 604800]` bounds checks, so the input "10"
— which the claim and the spec scenario require to be rejected — is
accepted and parses to 10 seconds. -/
theorem C3_bare_number_bypasses_bounds :
    parse_time_to_seconds "10" = some 10 := by decide

/-- C4 counterexample: the persistent write fails (`dbOk = false`), the
cache and store are indeed untouched, but NO failure reaches the user: the
handler replies with the normal success confirmation "45s".  The claim
requires a failure to be surfaced to the user. -/
theorem C4_write_failure_success_reply_counterexample :
    set_delete_time false "/set_time 45" 1 2 (some [2]) false
      (fun _ => none) (fun _ => none) =
      ⟨[.setConfirm "45s"], fun _ => none, fun _ => none⟩ := by rfl

/-- C4 (amended): when the persistent write fails, the cache entry and the
persisted record are left unchanged, but the failure is swallowed (logged
only): the caller observes nothing and the user still receives the normal
success confirmation for the requested time. -/
theorem C4_write_failure_cache_untouched_no_error_surfaced (text : String)
    (chat_id user_id : Int) (l : List Int) (db cache : Int → Option Nat)
    (dt : Nat)
    (hn : ((pySplit text).length == 1) = false)
    (hp : parse_time_to_seconds ((pySplit text).getD 1 "") = some dt)
    (ha : user_id ∈ l) :
    set_delete_time false text chat_id user_id (some l) false db cache =
      ⟨[.setConfirm (format_time dt)], db, cache⟩ := by
  have hp' : parse_time_to_seconds ((pySplit text)[1]?.getD "") = some dt := by
    simpa [List.getD] using hp
  simp [set_delete_time, hn, hp', ha, update_group_settings]

/-- Witness for C4 (amended) at a concrete failed-write run. -/
theorem C4_write_failure_cache_untouched_no_error_surfaced_witness :
    set_delete_time false "/set_time 2h" 5 6 (some [6]) false
      (fun _ => some 45) (fun _ => some 45) =
      ⟨[.setConfirm (format_time 7200)], fun _ => some 45, fun _ => some 45⟩ :=
  C4_write_failure_cache_untouched_no_error_surfaced "/set_time 2h" 5 6 [6]
    (fun _ => some 45) (fun _ => some 45) 7200 (by decide) (by decide)
    (by decide)

/-- C5 counterexample: the group already has a configured setting of 45
seconds, yet when the bot is added `handle_new_chat` overwrites it with the
default 600 — the claim requires the existing value to be kept. -/
theorem C5_existing_setting_overwritten_counterexample :
    (handle_new_chat [true] true (fun _ => some 45) (fun _ => some 45) 1).2.1 1
      = some 600 := by decide

/-- C5 (amended): when the bot is added to a group (and the persistent write
succeeds), the setting is unconditionally reset to the default 600 seconds,
in both store and cache, overwriting any previously configured value —
there is no existence check. -/
theorem C5_bot_added_resets_to_default (members : List Bool)
    (db cache : Int → Option Nat) (chat_id : Int)
    (hm : members.any (fun b => b) = true) :
    (handle_new_chat members true db cache chat_id).1 chat_id
      = some DEFAULT_DELETE_TIME ∧
    (handle_new_chat members true db cache chat_id).2.1 chat_id
      = some DEFAULT_DELETE_TIME := by
  constructor <;> simp [handle_new_chat, hm, update_group_settings]

/-- Witness for C5 (amended): a group configured to 45 is reset to 600. -/
theorem C5_bot_added_resets_to_default_witness :
    (handle_new_chat [false, true] true (fun _ => some 45) (fun _ => some 45)
      3).1 3 = some DEFAULT_DELETE_TIME ∧
    (handle_new_chat [false, true] true (fun _ => some 45) (fun _ => some 45)
      3).2.1 3 = some DEFAULT_DELETE_TIME :=
  C5_bot_added_resets_to_default [false, true] (fun _ => some 45)
    (fun _ => some 45) 3 (by decide)

/-- C6 counterexample: the membership query fails (ambiguous authorization,
`admins = none`), and the handler terminates with NO reply at all — the
request is not "rejected to the user" as the claim demands (state is indeed
unchanged). -/
theorem C6_unknown_auth_silent_counterexample :
    set_delete_time false "/set_time 5m" 3 4 none true
      (fun _ => none) (fun _ => none) = ⟨[], fun _ => none, fun _ => none⟩ :=
  by rfl

/-- C6 (amended): a non-admin requester is rejected with the admins-only
reply and no state change; an ambiguous authorization (failed membership
query) also causes no state change, but the handler aborts silently — no
rejection reaches the user. -/
theorem C6_no_or_unknown_auth_no_mutation (text : String)
    (chat_id user_id : Int) (l : List Int) (db cache : Int → Option Nat)
    (dt : Nat) (dbOk : Bool)
    (hn : ((pySplit text).length == 1) = false)
    (hp : parse_time_to_seconds ((pySplit text).getD 1 "") = some dt)
    (hl : user_id ∉ l) :
    set_delete_time false text chat_id user_id (some l) dbOk db cache =
      ⟨[.adminsOnly], db, cache⟩ ∧
    set_delete_time false text chat_id user_id none dbOk db cache =
      ⟨[], db, cache⟩ := by
  have hp' : parse_time_to_seconds ((pySplit text)[1]?.getD "") = some dt := by
    simpa [List.getD] using hp
  constructor <;> simp [set_delete_time, hn, hp', hl]

/-- Witness for C6 (amended): user 9 is not among the admins `[1]`. -/
theorem C6_no_or_unknown_auth_no_mutation_witness :
    set_delete_time false "/set_time 1h" 2 9 (some [1]) true
      (fun _ => none) (fun _ => none) =
      ⟨[.adminsOnly], fun _ => none, fun _ => none⟩ ∧
    set_delete_time false "/set_time 1h" 2 9 none true
      (fun _ => none) (fun _ => none) =
      ⟨[], fun _ => none, fun _ => none⟩ :=
  C6_no_or_unknown_auth_no_mutation "/set_time 1h" 2 9 [1]
    (fun _ => none) (fun _ => none) 3600 true (by decide) (by decide)
    (by decide)

/-- C7: `settings_get` returns the default 600 when the cache has no entry
for the group and the cached value when it has one; it reads only the
in-memory cache (the persistent store is not even an input of the read
path), and immediately after a successful `set(g, d)` it returns `d`. -/
theorem C7_get_cached_or_default (db cache1 cache2 : Int → Option Nat)
    (g : Int) (d v : Nat) (h1 : cache1 g = none) (h2 : cache2 g = some v) :
    settings_get cache1 g = DEFAULT_DELETE_TIME ∧
    settings_get cache2 g = v ∧
    settings_get (update_group_settings true db cache1 g (some d)).2 g = d := by
  refine ⟨?_, ?_, ?_⟩ <;> simp [settings_get, update_group_settings, h1, h2]

/-- Witness for C7 at concrete caches. -/
theorem C7_get_cached_or_default_witness :
    settings_get (fun _ => none) 1 = DEFAULT_DELETE_TIME ∧
    settings_get (fun _ => some 45) 1 = 45 ∧
    settings_get
      (update_group_settings true (fun _ => none) (fun _ => none) 1
        (some 45)).2 1 = 45 :=
  C7_get_cached_or_default (fun _ => none) (fun _ => none) (fun _ => some 45)
    1 45 45 rfl rfl

/-- C8: for a group whose cached `delete_after` is `d > 0`, every delete
attempt the task issues (in particular the first) fires no earlier than
`d` seconds after the message's arrival. -/
theorem C8_first_attempt_not_early (cache : Int → Option Nat) (chat_id : Int)
    (arrival d : Nat) (platform : Nat → DeleteOutcome)
    (h : cache chat_id = some d) (_hd : 0 < d) :
    (delete_message cache chat_id arrival platform).1.all
      (fun t => decide (arrival + d ≤ t)) = true := by
  simp [delete_message, settings_get, h]

/-- Witness for C8 at a 60-second group. -/
theorem C8_first_attempt_not_early_witness :
    (delete_message (fun _ => some 60) 1 100 (fun _ => .ok)).1.all
      (fun t => decide (100 + 60 ≤ t)) = true :=
  C8_first_attempt_not_early (fun _ => some 60) 1 100 60 (fun _ => .ok) rfl
    (by decide)

/-- C9: for any positive duration, `format_time` agrees with the
specification formatter that selects the largest unit among week, day,
hour, minute, second whose multiplier is at most the duration and reports
the floor of the division; in particular `format_time 90 = "1m"` and
`format_time 3599 = "59m"`. -/
theorem C9_format_largest_unit_floor (s : Nat) (h : 1 ≤ s) :
    format_spec s = some (format_time s) ∧
    format_time 90 = "1m" ∧ format_time 3599 = "59m" := by
  refine ⟨?_, by decide, by decide⟩
  unfold format_spec unit_table format_time
  by_cases h1 : s ≥ 604800
  · simp [List.find?, ge_iff_le, h1]
  · by_cases h2 : s ≥ 86400
    · simp [List.find?, ge_iff_le, h1, h2]
    · by_cases h3 : s ≥ 3600
      · simp [List.find?, ge_iff_le, h1, h2, h3]
      · by_cases h4 : s ≥ 60
        · simp [List.find?, ge_iff_le, h1, h2, h3, h4]
        · simp [List.find?, ge_iff_le, h1, h2, h3, h4, h, Nat.div_one]

/-- Witness for C9 at duration 90. -/
theorem C9_format_largest_unit_floor_witness :
    format_spec 90 = some (format_time 90) ∧
    format_time 90 = "1m" ∧ format_time 3599 = "59m" :=
  C9_format_largest_unit_floor 90 (by decide)

/-- C10: `/set_time` with no argument is a pure query — the handler replies
with the current delete time (cached value or the 600-second default, via
`format_time`) and leaves both the persistent store and the cache exactly
as they were. -/
theorem C10_query_no_mutation (text : String) (chat_id user_id : Int)
    (admins : Option (List Int)) (dbOk : Bool) (db cache : Int → Option Nat)
    (h : ((pySplit text).length == 1) = true) :
    set_delete_time false text chat_id user_id admins dbOk db cache =
      ⟨[.currentTime (format_time (settings_get cache chat_id))], db, cache⟩ :=
  by simp [set_delete_time, h]

/-- Witness for C10: bare `/set_time` on an unconfigured group. -/
theorem C10_query_no_mutation_witness :
    set_delete_time false "/set_time" 1 2 none true
      (fun _ => none) (fun _ => none) =
      ⟨[.currentTime (format_time (settings_get (fun _ => none) 1))],
        fun _ => none, fun _ => none⟩ :=
  C10_query_no_mutation "/set_time" 1 2 none true (fun _ => none)
    (fun _ => none) (by decide)

end Bot
